import Mathlib

/-!
Verification of the CryptosChain stress-test harness.

Shallow embedding of the Python sources:
  - `stress_test_blocktime.py`        (timestamp-based monitor, simple verdict)
  - `stress_test_blocktime_fixed.py`  (monotonic-clock monitor)
  - `stress_test_20k_tps.py`          (monotonic-clock monitor, throughput-aware verdict)
  - `simple_blocktime_test.py`        (timestamp-based monitor with final report)

Machine times (`time.perf_counter`, `time.time`) and millisecond samples are
modelled as rationals; block heights and chain timestamps as naturals.
Network polls are modelled as the sequence of successful observations the
monitor loop obtains (a swallowed transport error is simply a poll that does
not appear in the sequence).
-/

/-- One successful poll observation: the height returned by `eth_blockNumber`
(or the `number` field of the latest block), the chain timestamp in seconds of
the block fetched on detection, and the value of the monotonic clock
(`time.perf_counter`) at the moment of the poll. -/
structure MonObs where
  height : ℕ
  chainTs : ℕ
  mono : ℚ
deriving DecidableEq

/-- Loop state of `monitor_blocks` in `stress_test_blocktime_fixed.py` and
`stress_test_20k_tps.py`: `last_block`, `last_block_time` (perf_counter
seconds), the shared `self.block_times` sample list (milliseconds) and
`blocks_produced`. -/
structure PerfMonState where
  lastBlock : ℕ
  lastBlockTime : ℚ
  blockTimes : List ℚ
  blocksProduced : ℕ
deriving DecidableEq

/-- One iteration of the polling loop of
`SeiStressTest.monitor_blocks` (`stress_test_blocktime_fixed.py`, lines 87-112):
on `current_block > last_block` compute `blocks_diff`, the elapsed monotonic
time in ms, the per-block average `time_diff_ms / blocks_diff`, and append that
average once per skipped block; otherwise the state is unchanged. -/
def monitorFixedStep (st : PerfMonState) (o : MonObs) : PerfMonState :=
  if st.lastBlock < o.height then
    let blocksDiff : ℕ := o.height - st.lastBlock
    let timeDiffMs : ℚ := (o.mono - st.lastBlockTime) * 1000
    let avgBlockTimeMs : ℚ := timeDiffMs / blocksDiff
    { lastBlock := o.height
      lastBlockTime := o.mono
      blockTimes := st.blockTimes ++ List.replicate blocksDiff avgBlockTimeMs
      blocksProduced := st.blocksProduced + blocksDiff }
  else
    st

/-- One iteration of the polling loop of
`SeiHighPerformanceStressTest.monitor_blocks` (`stress_test_20k_tps.py`,
lines 96-121), transcribed independently of `monitorFixedStep`; the two
function bodies in the Python sources are line-for-line the same algorithm. -/
def monitor20kStep (st : PerfMonState) (o : MonObs) : PerfMonState :=
  if st.lastBlock < o.height then
    let blocksDiff : ℕ := o.height - st.lastBlock
    let timeDiffMs : ℚ := (o.mono - st.lastBlockTime) * 1000
    let avgBlockTimeMs : ℚ := timeDiffMs / blocksDiff
    { lastBlock := o.height
      lastBlockTime := o.mono
      blockTimes := st.blockTimes ++ List.replicate blocksDiff avgBlockTimeMs
      blocksProduced := st.blocksProduced + blocksDiff }
  else
    st

/-- Loop state of `monitor_blocks` in `stress_test_blocktime.py`: `last_block`,
`last_timestamp` (initially `None`), `self.block_times` and `blocks_produced`. -/
structure TsMonState where
  lastBlock : ℕ
  lastTimestamp : Option ℕ
  blockTimes : List ℚ
  blocksProduced : ℕ
deriving DecidableEq

/-- One iteration of the polling loop of `SeiStressTest.monitor_blocks`
(`stress_test_blocktime.py`, lines 83-109): on `current_block > last_block`
the block timestamp is fetched; a single sample is appended only when
`last_timestamp` is truthy (set and nonzero, Python `if last_timestamp:`),
equal to the timestamp difference in seconds times 1000, except that a zero
difference is replaced by the hardcoded estimate `85`; `blocks_produced`
advances by one per detection regardless of how many heights were skipped. -/
def monitorTsStep (st : TsMonState) (o : MonObs) : TsMonState :=
  if st.lastBlock < o.height then
    let newTimes : List ℚ :=
      match st.lastTimestamp with
      | some lt =>
        if lt ≠ 0 then
          let blockTimeS : ℤ := (o.chainTs : ℤ) - (lt : ℤ)
          let blockTimeMs : ℚ := if blockTimeS = 0 then 85 else (blockTimeS : ℚ) * 1000
          st.blockTimes ++ [blockTimeMs]
        else st.blockTimes
      | none => st.blockTimes
    { lastBlock := o.height
      lastTimestamp := some o.chainTs
      blockTimes := newTimes
      blocksProduced := st.blocksProduced + 1 }
  else
    st

/-- Loop state of `BlockTimeMonitor.monitor_block_production`
(`simple_blocktime_test.py`): `last_block_number` and `last_timestamp` are both
seeded from the initial `eth_getBlockByNumber` call, so the timestamp is always
present. -/
structure SimpleMonState where
  lastBlockNumber : ℕ
  lastTimestamp : ℕ
  blockTimes : List ℚ
  blocksProduced : ℕ
deriving DecidableEq

/-- One iteration of the polling loop of
`BlockTimeMonitor.monitor_block_production` (`simple_blocktime_test.py`,
lines 92-135): on a height advance the timestamp difference in ms is computed,
a zero difference is replaced by the hardcoded `85`, and exactly one sample is
appended per detection. -/
def simpleMonStep (st : SimpleMonState) (o : MonObs) : SimpleMonState :=
  if st.lastBlockNumber < o.height then
    let blockTimeMs : ℤ := ((o.chainTs : ℤ) - (st.lastTimestamp : ℤ)) * 1000
    let sample : ℚ := if blockTimeMs = 0 then 85 else (blockTimeMs : ℚ)
    { lastBlockNumber := o.height
      lastTimestamp := o.chainTs
      blockTimes := st.blockTimes ++ [sample]
      blocksProduced := st.blocksProduced + 1 }
  else
    st

/-- Initial state of the timestamp monitor (`stress_test_blocktime.py`,
lines 75-77): the starting height is queried, `last_timestamp = None`, and no
samples have been collected. -/
def initTsState (h0 : ℕ) : TsMonState :=
  { lastBlock := h0, lastTimestamp := none, blockTimes := [], blocksProduced := 0 }

/-- Initial state of the monotonic-clock monitors
(`stress_test_blocktime_fixed.py` lines 77-81, `stress_test_20k_tps.py`
lines 86-90): the starting height is queried and `last_block_time` is read
from `time.perf_counter`. -/
def initPerfState (h0 : ℕ) (m0 : ℚ) : PerfMonState :=
  { lastBlock := h0, lastBlockTime := m0, blockTimes := [], blocksProduced := 0 }

/-- A whole monitoring phase of the fixed variant: fold the per-poll step over
the sequence of successful observations. -/
def runMonitorFixed (st : PerfMonState) (obs : List MonObs) : PerfMonState :=
  obs.foldl monitorFixedStep st

/-- A whole monitoring phase of the 20k variant. -/
def runMonitor20k (st : PerfMonState) (obs : List MonObs) : PerfMonState :=
  obs.foldl monitor20kStep st

/-- A whole monitoring phase of the timestamp variant. -/
def runMonitorTs (st : TsMonState) (obs : List MonObs) : TsMonState :=
  obs.foldl monitorTsStep st

/-- Arithmetic mean of a sample list, `statistics.mean`. -/
def listMean (xs : List ℚ) : ℚ :=
  xs.sum / xs.length

/-- Sample variance with Bessel correction, the square of Python
`statistics.stdev` (which divides the squared deviations by `n - 1` and takes
a square root; the square root does not affect presence, absence or zeroness
of the reported value, so the reports below carry the variance). -/
def sampleVariance (xs : List ℚ) : ℚ :=
  ((xs.map (fun x => (x - listMean xs) ^ 2)).sum) / ((xs.length : ℚ) - 1)

/-- Standard-deviation line of the final report of `simple_blocktime_test.py`
(lines 156-157): printed only under `if len(self.block_times) > 1:`, hence
absent (`none`) for fewer than two samples. -/
def reportStdSimple (xs : List ℚ) : Option ℚ :=
  if 1 < xs.length then some (sampleVariance xs) else none

/-- Standard-deviation value of the stress-test variants
(`stress_test_blocktime.py` line 255, `stress_test_blocktime_fixed.py`
line 276, `stress_test_20k_tps.py` line 306):
`statistics.stdev(...) if len(...) > 1 else 0`, always printed, so the report
always carries a value. -/
def reportStdStress (xs : List ℚ) : Option ℚ :=
  some (if 1 < xs.length then sampleVariance xs else 0)

/-- The three tiers of the final verdict print block. -/
inductive Verdict
  | maintained
  | acceptable
  | struggled
deriving DecidableEq

/-- Verdict rule chain of `SeiHighPerformanceStressTest.run_full_test`
(`stress_test_20k_tps.py`, lines 334-339):
`if avg_block_time <= 85 and actual_tps >= 18000`, `elif avg_block_time <= 100
and actual_tps >= 15000`, `else` struggled. -/
def verdict20k (avgBlockTime actualTps : ℚ) : Verdict :=
  if avgBlockTime ≤ 85 ∧ 18000 ≤ actualTps then .maintained
  else if avgBlockTime ≤ 100 ∧ 15000 ≤ actualTps then .acceptable
  else .struggled

/-- Verdict rule chain of `SeiStressTest.run_full_test`
(`stress_test_blocktime.py`, lines 280-285): interval-only,
`if avg_block_time <= 85`, `elif avg_block_time <= 100`, `else`. -/
def verdictBlocktime (avgBlockTime : ℚ) : Verdict :=
  if avgBlockTime ≤ 85 then .maintained
  else if avgBlockTime ≤ 100 then .acceptable
  else .struggled

/-- The analysis data assembled and printed by Phase 3 of
`SeiStressTest.run_full_test` (`stress_test_blocktime.py`, lines 253-285);
console-only min/max/percentile lines are elided, the verdict is the last
thing the run emits. -/
structure AnalysisReport where
  count : ℕ
  avgBlockTime : ℚ
  stdReport : Option ℚ
  effectiveTps : ℚ
  verdict : Verdict
deriving DecidableEq

/-- Phase 3 of `SeiStressTest.run_full_test` (`stress_test_blocktime.py`,
lines 253-285): the entire statistics and verdict block is guarded by
`if self.block_times:`; with an empty sample list nothing is computed and no
verdict is emitted (`none`). -/
def runFullTestAnalysis (blockTimes : List ℚ) (sent : ℕ) (stressDuration : ℚ) :
    Option AnalysisReport :=
  if blockTimes.isEmpty then none
  else
    some { count := blockTimes.length
           avgBlockTime := listMean blockTimes
           stdReport := reportStdStress blockTimes
           effectiveTps := (sent : ℚ) / stressDuration
           verdict := verdictBlocktime (listMean blockTimes) }

/-- Final report alternatives of
`BlockTimeMonitor.monitor_block_production` (`simple_blocktime_test.py`,
lines 151-191): statistics when samples exist, the explicit no-data message
otherwise. -/
inductive SimpleOutcome
  | stats (count : ℕ) (avg : ℚ) (std : Option ℚ)
  | noData
deriving DecidableEq

/-- The final statistics block of `simple_blocktime_test.py` (lines 151-191):
`if self.block_times:` print count, mean and the guarded stddev, `else` print
the no-new-blocks message. -/
def simpleFinalReport (xs : List ℚ) : SimpleOutcome :=
  if xs.isEmpty then .noData
  else .stats xs.length (listMean xs) (reportStdSimple xs)

/-- One in-loop nonce reservation for an account
(`stress_test_blocktime_fixed.py` lines 213-220, `stress_test_20k_tps.py`
lines 242-249): the batch is given the current `nonce_counters[address]` as its
starting nonce, and the counter is advanced by the batch size. Returns the
reserved starting nonce and the new counter. -/
def reserveNonce (counter : ℕ) (count : ℕ) : ℕ × ℕ :=
  (counter, counter + count)

/-- All reservations performed for one account during a phase, in program
order (the dispatch loop reserves synchronously before gathering the batch).
Returns the list of reserved ranges as pairs of starting nonce and count,
together with the final counter. -/
def reserveSeq (counter : ℕ) : List ℕ → List (ℕ × ℕ) × ℕ
  | [] => ([], counter)
  | c :: cs =>
    let r := reserveNonce counter c
    let rest := reserveSeq r.2 cs
    ((r.1, c) :: rest.1, rest.2)

/-- Membership of a nonce in a reserved range given as starting nonce and
count. -/
def inRange (r : ℕ × ℕ) (n : ℕ) : Prop :=
  r.1 ≤ n ∧ n < r.1 + r.2

instance (r : ℕ × ℕ) (n : ℕ) : Decidable (inRange r n) := by
  unfold inRange; infer_instance

/-- Clock state of the optimized dispatch loop
(`stress_test_20k_tps.py`, lines 226-254): the current wall-clock value and
`last_batch_time`, which the code resets only after `asyncio.gather`
completes. -/
structure RateState where
  now : ℚ
  lastBatchTime : ℚ
deriving DecidableEq

/-- One iteration of the rate-controlled dispatch loop of
`stress_test_transactions_optimized` (`stress_test_20k_tps.py`,
lines 228-254), driven by the dispatch duration `d` of this batch and the
post-dispatch overhead `o` (progress update and loop bookkeeping) before the
next iteration reads the clock. Returns the sleep performed before this batch
and the clock state at the next iteration's top:
`time_since_last_batch = current_time - last_batch_time`; sleep the remainder
of `batch_interval` if positive; dispatch; `last_batch_time = time.time()`. -/
def rateStep (interval : ℚ) (st : RateState) (d o : ℚ) : ℚ × RateState :=
  let timeSinceLastBatch := st.now - st.lastBatchTime
  let sleep := if timeSinceLastBatch < interval then interval - timeSinceLastBatch else 0
  let dispatchEnd := st.now + sleep + d
  (sleep, { now := dispatchEnd + o, lastBatchTime := dispatchEnd })

/-- The sequence of sleeps the optimized dispatch loop performs, one per
batch, given each batch's dispatch duration and post-dispatch overhead. -/
def rateSleeps (interval : ℚ) (st : RateState) : List (ℚ × ℚ) → List ℚ
  | [] => []
  | b :: bs =>
    let s := rateStep interval st b.1 b.2
    s.1 :: rateSleeps interval s.2 bs

/-- The sleep executed after a batch by the plain dispatch loop
(`stress_test_blocktime.py`, lines 203-206): `await asyncio.gather(*tasks)`
followed unconditionally by `await asyncio.sleep(batch_delay)`, whatever the
dispatch duration `d` was. -/
def blocktimeSleepAfterBatch (batchDelay d : ℚ) : ℚ :=
  batchDelay

/-- Python runtime errors relevant to the generator setup, together with the
configuration error the specification postulates; the source defines no
such configuration check. -/
inductive PyError
  | zeroDivisionError
  | insufficientAccounts
deriving DecidableEq

/-- Python integer floor division, which raises `ZeroDivisionError` on a zero
divisor. -/
def pyFloorDiv (a b : ℕ) : Except PyError ℕ :=
  if b = 0 then .error .zeroDivisionError else .ok (a / b)

/-- Batch configuration computed before the dispatch loop. -/
structure RateConfig where
  batchInterval : ℚ
  concurrentSenders : ℕ
  txsPerAccount : ℕ
deriving DecidableEq

/-- Setup section of `stress_test_transactions_optimized`
(`stress_test_20k_tps.py`, lines 219-224), run before the `while` loop
dispatches any batch: `transactions_per_batch = 2000`,
`batch_interval = transactions_per_batch / tps_target`,
`concurrent_senders = min(100, len(self.accounts))`,
`txs_per_account = transactions_per_batch // concurrent_senders`. -/
def setupOptimized (numAccounts : ℕ) (tpsTarget : ℚ) : Except PyError RateConfig :=
  let transactionsPerBatch : ℕ := 2000
  let batchInterval : ℚ := (transactionsPerBatch : ℚ) / tpsTarget
  let concurrentSenders : ℕ := min 100 numAccounts
  match pyFloorDiv transactionsPerBatch concurrentSenders with
  | .error e => .error e
  | .ok t =>
    .ok { batchInterval := batchInterval
          concurrentSenders := concurrentSenders
          txsPerAccount := t }

/-- The four ways one gathered submission response can look to the draining
loop: the task itself raised, the JSON parsed and contains a `result` field,
the JSON parsed without a `result` field (an error response), or `.json()`
raised. -/
inductive RpcResponse
  | transportException
  | jsonWithResult
  | jsonWithoutResult
  | jsonDecodeFailure
deriving DecidableEq

/-- One step of the response-draining loop of
`SeiStressTest.send_transaction_batch` (`stress_test_blocktime.py`,
lines 149-160), acting on the `(sent, failed)` counter pair: an exception
increments `failed`; a parsed response with `result` increments `sent`; a
parsed response without `result` increments `failed`; a parse failure
increments `failed`. -/
def recordOutcome (c : ℕ × ℕ) (r : RpcResponse) : ℕ × ℕ :=
  match r with
  | .transportException => (c.1, c.2 + 1)
  | .jsonWithResult => (c.1 + 1, c.2)
  | .jsonWithoutResult => (c.1, c.2 + 1)
  | .jsonDecodeFailure => (c.1, c.2 + 1)

/-- Draining all gathered responses of one batch
(`stress_test_blocktime.py`, lines 147-160); `asyncio.gather` returns exactly
one response per submitted transaction. -/
def drainBatch (rs : List RpcResponse) (c : ℕ × ℕ) : ℕ × ℕ :=
  rs.foldl recordOutcome c

/-- One step of the response-draining loop of
`send_transaction_batch_optimized` (`stress_test_20k_tps.py`, lines 170-183),
which additionally tracks the local `success_count` as a third component. -/
def recordOutcomeOpt (c : (ℕ × ℕ) × ℕ) (r : RpcResponse) : (ℕ × ℕ) × ℕ :=
  match r with
  | .transportException => ((c.1.1, c.1.2 + 1), c.2)
  | .jsonWithResult => ((c.1.1 + 1, c.1.2), c.2 + 1)
  | .jsonWithoutResult => ((c.1.1, c.1.2 + 1), c.2)
  | .jsonDecodeFailure => ((c.1.1, c.1.2 + 1), c.2)

/-- Draining all gathered responses of one optimized batch
(`stress_test_20k_tps.py`, lines 168-185). -/
def drainBatchOpt (rs : List RpcResponse) (c : (ℕ × ℕ) × ℕ) : (ℕ × ℕ) × ℕ :=
  rs.foldl recordOutcomeOpt c

/-- Claim C10: every gathered response of a batch increments exactly one of
the counters sent and failed (a parsed response with a result field increments
sent, every other outcome increments failed), so draining a batch of B
responses raises sent + failed by exactly B, in both the plain and the
optimized batch sender. -/
theorem drain_batch_counts_each_response_once :
    (∀ (c : ℕ × ℕ) (r : RpcResponse),
      (recordOutcome c r).1 + (recordOutcome c r).2 = c.1 + c.2 + 1
      ∧ ((recordOutcome c r).1 = c.1 + 1 ∧ (recordOutcome c r).2 = c.2
          ∨ (recordOutcome c r).1 = c.1 ∧ (recordOutcome c r).2 = c.2 + 1)
      ∧ ((recordOutcome c r).1 = c.1 + 1 ↔ r = RpcResponse.jsonWithResult))
    ∧ (∀ (rs : List RpcResponse) (c : ℕ × ℕ),
        (drainBatch rs c).1 + (drainBatch rs c).2 = c.1 + c.2 + rs.length)
    ∧ (∀ (rs : List RpcResponse) (c : (ℕ × ℕ) × ℕ),
        ((drainBatchOpt rs c).1).1 + ((drainBatchOpt rs c).1).2
          = (c.1).1 + (c.1).2 + rs.length) := by
  refine ⟨?_, ?_, ?_⟩
  · intro c r
    cases r <;> simp [recordOutcome] <;> omega
  · intro rs
    induction rs with
    | nil => intro c; simp [drainBatch]
    | cons r rs ih =>
      intro c
      have hstep := ih (recordOutcome c r)
      simp only [drainBatch, List.foldl_cons] at hstep ⊢
      cases r <;> simp [recordOutcome] at hstep ⊢ <;> omega
  · intro rs
    induction rs with
    | nil => intro c; simp [drainBatchOpt]
    | cons r rs ih =>
      intro c
      have hstep := ih (recordOutcomeOpt c r)
      simp only [drainBatchOpt, List.foldl_cons] at hstep ⊢
      cases r <;> simp [recordOutcomeOpt] at hstep ⊢ <;> omega

/-- Claim C2 counterexample: the verdict of stress_test_blocktime.py's
run_full_test reads only the mean interval — a loaded phase whose single
sample has mean 80 ms with zero transactions sent (throughput 0, far below
the claimed 18000 requirement) is still classified in the top tier, so the
claimed iff with the throughput conjunct is false for that cited verdict. -/
theorem blocktime_verdict_ignores_throughput :
    runFullTestAnalysis [80] 0 30
      = some { count := 1, avgBlockTime := 80, stdReport := some 0,
               effectiveTps := 0, verdict := .maintained }
    ∧ ¬ ((18000 : ℚ) ≤ 0) := by
  constructor
  · norm_num [runFullTestAnalysis, listMean, reportStdStress, verdictBlocktime]
  · norm_num

/-- Claim C2 amended: the 20k run's verdict is the stated ordered rule chain
with inclusive boundaries — top tier exactly when mean interval ≤ 85 and
throughput ≥ 18000, otherwise middle tier exactly when mean ≤ 100 and
throughput ≥ 15000, otherwise the failing tier — and in particular mean 90 ms
with throughput 16000 is the middle tier; the verdict of the blocktime
variants classifies by the mean interval alone (top tier exactly when
mean ≤ 85, middle exactly when 85 < mean ≤ 100) with no throughput
condition. -/
theorem verdict_rule_chains :
    (∀ m t : ℚ,
      (verdict20k m t = .maintained ↔ m ≤ 85 ∧ 18000 ≤ t)
      ∧ (verdict20k m t = .acceptable ↔ ¬(m ≤ 85 ∧ 18000 ≤ t) ∧ m ≤ 100 ∧ 15000 ≤ t)
      ∧ (verdict20k m t = .struggled ↔ ¬(m ≤ 85 ∧ 18000 ≤ t) ∧ ¬(m ≤ 100 ∧ 15000 ≤ t)))
    ∧ verdict20k 90 16000 = .acceptable
    ∧ (∀ m : ℚ,
      (verdictBlocktime m = .maintained ↔ m ≤ 85)
      ∧ (verdictBlocktime m = .acceptable ↔ ¬ m ≤ 85 ∧ m ≤ 100)
      ∧ (verdictBlocktime m = .struggled ↔ ¬ m ≤ 85 ∧ ¬ m ≤ 100)) := by
  refine ⟨?_, ?_, ?_⟩
  · intro m t
    unfold verdict20k
    split_ifs with h1 h2 <;> simp_all
  · unfold verdict20k
    norm_num
  · intro m
    unfold verdictBlocktime
    split_ifs with h1 h2 <;> simp_all

/-- Claim C9: in the timestamp-based monitors, a detected block whose chain
timestamp equals the previously recorded one (zero-second difference) makes
the monitor append the hardcoded sample 85 — the pass/fail target value —
instead of any measured duration. -/
theorem timestamp_tie_records_hardcoded_85 :
    (∀ (st : TsMonState) (o : MonObs) (t : ℕ), st.lastBlock < o.height →
      st.lastTimestamp = some t → t ≠ 0 → o.chainTs = t →
      (monitorTsStep st o).blockTimes = st.blockTimes ++ [85])
    ∧ (∀ (st : SimpleMonState) (o : MonObs), st.lastBlockNumber < o.height →
      o.chainTs = st.lastTimestamp →
      (simpleMonStep st o).blockTimes = st.blockTimes ++ [85]) := by
  constructor
  · intro st o t hlt hts ht0 heq
    unfold monitorTsStep
    rw [if_pos hlt, hts]
    simp [ht0, heq]
  · intro st o hlt heq
    unfold simpleMonStep
    rw [if_pos hlt]
    simp [heq]

/-- Concrete instance of the hardcoded-85 behaviour: previous recorded
timestamp 7 s, new block detected within the same second — both timestamp
monitors append exactly the sample 85. -/
theorem timestamp_tie_records_hardcoded_85_witness :
    (monitorTsStep
        { lastBlock := 0, lastTimestamp := some 7, blockTimes := [], blocksProduced := 0 }
        { height := 1, chainTs := 7, mono := 0 }).blockTimes = [] ++ [85]
    ∧ (simpleMonStep
        { lastBlockNumber := 0, lastTimestamp := 7, blockTimes := [], blocksProduced := 0 }
        { height := 1, chainTs := 7, mono := 0 }).blockTimes = [] ++ [85] :=
  ⟨timestamp_tie_records_hardcoded_85.1 _ _ 7 (by decide) rfl (by decide) rfl,
   timestamp_tie_records_hardcoded_85.2 _ _ (by decide) rfl⟩

/-- Claim C7 counterexample: starting the optimized generator with zero
accounts is not surfaced as the postulated configuration error — the setup
fails with a ZeroDivisionError from computing
`transactions_per_batch // min(100, 0)`. -/
theorem zero_accounts_fails_with_zero_division :
    setupOptimized 0 20000 = .error .zeroDivisionError
    ∧ (Except.error PyError.zeroDivisionError
        ≠ (Except.error PyError.insufficientAccounts : Except PyError RateConfig)) := by
  refine ⟨rfl, ?_⟩
  simp

/-- Claim C7 amended: the generator performs no account-count validation; with
zero accounts the optimized setup fails before the dispatch loop with a
ZeroDivisionError, and with at least one account the setup succeeds. -/
theorem setup_optimized_zero_accounts_behaviour :
    (∀ tps : ℚ, setupOptimized 0 tps = .error .zeroDivisionError)
    ∧ (∀ (n : ℕ) (tps : ℚ), ∃ cfg, setupOptimized (n + 1) tps = .ok cfg) := by
  constructor
  · intro tps; rfl
  · intro n tps
    have h : ¬ min 100 (n + 1) = 0 := by omega
    unfold setupOptimized pyFloorDiv
    simp only [if_neg h]
    exact ⟨_, rfl⟩

/-- Claim C8 counterexample: on the identical single-poll observation (height
advances 0 to 1, chain timestamp 7 s, monotonic elapsed 0.1 s) the
timestamp monitor of stress_test_blocktime.py appends no sample (its previous
timestamp is still unset at the first detection) while the fixed monitor
appends the 100 ms sample, so the two variants do not append the same
samples. -/
theorem monitor_variants_not_equivalent :
    (runMonitorTs (initTsState 0) [{ height := 1, chainTs := 7, mono := 1/10 }]).blockTimes = []
    ∧ (runMonitorFixed (initPerfState 0 0)
        [{ height := 1, chainTs := 7, mono := 1/10 }]).blockTimes = [100]
    ∧ ([] : List ℚ) ≠ [100] := by
  refine ⟨rfl, ?_, by decide⟩
  norm_num [runMonitorFixed, monitorFixedStep, initPerfState, List.replicate]

/-- Claim C8 amended: the fixed and 20k monitors are genuine cosmetic variants
— identical samples on every observation sequence — and read only the
monotonic clock, never the chain timestamp; the monitor of
stress_test_blocktime.py instead reads only the chain timestamp, never the
monotonic clock, and appends no sample at its first detection. -/
theorem monitor_fixed_20k_equivalent_ts_distinct :
    (∀ (st : PerfMonState) (obs : List MonObs), runMonitorFixed st obs = runMonitor20k st obs)
    ∧ (∀ (st : PerfMonState) (h ts ts' : ℕ) (m : ℚ),
        monitorFixedStep st { height := h, chainTs := ts, mono := m }
          = monitorFixedStep st { height := h, chainTs := ts', mono := m })
    ∧ (∀ (st : TsMonState) (h ts : ℕ) (m m' : ℚ),
        monitorTsStep st { height := h, chainTs := ts, mono := m }
          = monitorTsStep st { height := h, chainTs := ts, mono := m' })
    ∧ (∀ (h0 k ts : ℕ) (m : ℚ),
        (monitorTsStep (initTsState h0)
          { height := h0 + k + 1, chainTs := ts, mono := m }).blockTimes = []) := by
  refine ⟨fun st obs => rfl, fun st h ts ts' m => rfl, fun st h ts m m' => rfl, ?_⟩
  intro h0 k ts m
  unfold monitorTsStep initTsState
  rw [if_pos (by omega : h0 < h0 + k + 1)]

/-- Claim C1 counterexample: a poll of the stress_test_blocktime.py monitor
that observes a Δ = 3 height jump (5 to 8, previous recorded timestamp 100 s,
new timestamp 101 s, 300 ms of monotonic elapsed time) appends exactly one
timestamp-derived sample of 1000 ms — not Δ = 3 copies of the monotonic
average elapsed/Δ = 100 ms as the claim states for every cited monitor. -/
theorem monitor_ts_does_not_split_delta :
    (monitorTsStep
        { lastBlock := 5, lastTimestamp := some 100, blockTimes := [], blocksProduced := 0 }
        { height := 8, chainTs := 101, mono := 3/10 }).blockTimes = [1000]
    ∧ (monitorTsStep
        { lastBlock := 5, lastTimestamp := some 100, blockTimes := [], blocksProduced := 0 }
        { height := 8, chainTs := 101, mono := 3/10 }).blockTimes.length ≠ 8 - 5
    ∧ ((1000 : ℚ) ≠ (3/10 - 0) * 1000 / ((8 - 5 : ℕ) : ℚ)) := by
  refine ⟨?_, ?_, ?_⟩
  · norm_num [monitorTsStep]
  · norm_num [monitorTsStep]
  · norm_num

/-- Claim C1 amended: when a poll of the monotonic-clock monitors (fixed and
20k variants) observes the height advance by Δ ≥ 1 blocks, it appends exactly
Δ samples, each equal to the elapsed monotonic time since the prior detection
divided by Δ (in ms), and those Δ samples sum back to the whole elapsed time;
the monitor of stress_test_blocktime.py does not split: it appends at most one
sample per poll regardless of Δ. -/
theorem monitor_splits_elapsed_evenly (st : PerfMonState) (o : MonObs)
    (h : st.lastBlock < o.height) :
    (monitorFixedStep st o).blockTimes
      = st.blockTimes ++ List.replicate (o.height - st.lastBlock)
          ((o.mono - st.lastBlockTime) * 1000 / ((o.height - st.lastBlock : ℕ) : ℚ))
    ∧ (monitorFixedStep st o).blockTimes.length
      = st.blockTimes.length + (o.height - st.lastBlock)
    ∧ (List.replicate (o.height - st.lastBlock)
        ((o.mono - st.lastBlockTime) * 1000 / ((o.height - st.lastBlock : ℕ) : ℚ))).sum
      = (o.mono - st.lastBlockTime) * 1000
    ∧ monitor20kStep st o = monitorFixedStep st o
    ∧ ∀ (st2 : TsMonState) (o2 : MonObs),
        (monitorTsStep st2 o2).blockTimes.length ≤ st2.blockTimes.length + 1 := by
  have hne : ((o.height - st.lastBlock : ℕ) : ℚ) ≠ 0 := by
    have : o.height - st.lastBlock ≠ 0 := by omega
    exact_mod_cast this
  refine ⟨?_, ?_, ?_, rfl, ?_⟩
  · unfold monitorFixedStep
    rw [if_pos h]
  · unfold monitorFixedStep
    rw [if_pos h]
    simp
  · rw [List.sum_replicate, nsmul_eq_mul, mul_comm,
      div_mul_cancel₀ _ hne]
  · intro st2 o2
    unfold monitorTsStep
    split_ifs with h2
    · cases h3 : st2.lastTimestamp with
      | none => simp
      | some lt =>
        by_cases h0 : lt = 0
        · simp [h0]
        · simp [h0]
    · simp

/-- Concrete instance: a Δ = 3 height jump over 300 ms of monotonic time
yields exactly the three samples 100 ms, 100 ms, 100 ms. -/
theorem monitor_splits_elapsed_evenly_witness :
    (monitorFixedStep (initPerfState 0 0)
        { height := 3, chainTs := 0, mono := 3/10 }).blockTimes = [100, 100, 100] := by
  have h := monitor_splits_elapsed_evenly (initPerfState 0 0)
    { height := 3, chainTs := 0, mono := 3/10 } (by decide)
  rw [h.1]
  norm_num [initPerfState, List.replicate]

/-- Every range handed out by the reservation sequence starts at or above the
counter the sequence started from. -/
theorem reserveSeq_start_lower_bound (cs : List ℕ) :
    ∀ (k : ℕ) (r : ℕ × ℕ), r ∈ (reserveSeq k cs).1 → k ≤ r.1 := by
  induction cs with
  | nil =>
    intro k r hr
    simp [reserveSeq] at hr
  | cons c cs ih =>
    intro k r hr
    rw [show (reserveSeq k (c :: cs)).1
        = (k, c) :: (reserveSeq (k + c) cs).1 from rfl, List.mem_cons] at hr
    rcases hr with h | h
    · subst h
      exact le_refl k
    · have := ih (k + c) r h
      omega

/-- Claim C3: a phase's reservation sequence for one account hands each
reservation the current counter and advances it by the reserved count — the
final counter equals the initial counter plus the total reserved (so the
counter never decreases), the reserved ranges are ordered and pairwise
disjoint, and their union covers exactly the contiguous nonce interval
starting at the initial counter of length the total reserved: no overlap and
no gaps. -/
theorem nonce_reservations_contiguous (init : ℕ) (counts : List ℕ) :
    (reserveSeq init counts).2 = init + counts.sum
    ∧ List.Pairwise (fun r s => r.1 + r.2 ≤ s.1) (reserveSeq init counts).1
    ∧ ∀ n : ℕ, (∃ r ∈ (reserveSeq init counts).1, inRange r n)
        ↔ (init ≤ n ∧ n < init + counts.sum) := by
  induction counts generalizing init with
  | nil =>
    refine ⟨by simp [reserveSeq], by simp [reserveSeq], ?_⟩
    intro n
    simp only [reserveSeq, List.not_mem_nil, false_and, exists_false,
      List.sum_nil, Nat.add_zero, false_iff]
    omega
  | cons c cs ih =>
    obtain ⟨ih1, ih2, ih3⟩ := ih (init + c)
    have hcons : (reserveSeq init (c :: cs)).1
        = (init, c) :: (reserveSeq (init + c) cs).1 := rfl
    have hsnd : (reserveSeq init (c :: cs)).2 = (reserveSeq (init + c) cs).2 := rfl
    refine ⟨?_, ?_, ?_⟩
    · rw [hsnd, ih1, List.sum_cons]
      omega
    · rw [hcons]
      refine List.Pairwise.cons ?_ ih2
      intro r hr
      have := reserveSeq_start_lower_bound cs (init + c) r hr
      simpa using this
    · intro n
      rw [hcons]
      constructor
      · rintro ⟨r, hr, hn⟩
        rw [List.mem_cons] at hr
        rcases hr with rfl | hr
        · unfold inRange at hn
          simp only [List.sum_cons]
          omega
        · have := (ih3 n).mp ⟨r, hr, hn⟩
          simp only [List.sum_cons]
          omega
      · intro hn
        rw [List.sum_cons] at hn
        by_cases hc : n < init + c
        · exact ⟨(init, c), List.mem_cons_self _ _, ⟨by omega, by omega⟩⟩
        · obtain ⟨r, hr, hrn⟩ := (ih3 n).mpr ⟨by omega, by omega⟩
          exact ⟨r, List.mem_cons_of_mem _ hr, hrn⟩

/-- Claim C4 counterexample: with an empty loaded-phase sample sequence,
Phase 3 of run_full_test skips its whole analysis block and the run emits no
verdict at all. -/
theorem empty_phase_emits_no_verdict : runFullTestAnalysis [] 1000 30 = none := rfl

/-- Claim C4 amended: an empty sample sequence leads to no statistics
computation at all (the analysis block is skipped wholesale, so nothing is
divided); simple_blocktime_test reports the explicit no-data outcome; any
nonempty sample sequence produces a full report carrying a verdict — but the
stress-test run itself emits no verdict for an empty sequence. -/
theorem empty_phase_reporting (sent : ℕ) (d : ℚ) :
    runFullTestAnalysis [] sent d = none
    ∧ simpleFinalReport [] = SimpleOutcome.noData
    ∧ ∀ xs : List ℚ, xs ≠ [] → (runFullTestAnalysis xs sent d).isSome = true := by
  refine ⟨rfl, rfl, ?_⟩
  intro xs hxs
  cases xs with
  | nil => exact absurd rfl hxs
  | cons a as => rfl

/-- Concrete instance: the empty phase yields no report while a one-sample
phase yields one. -/
theorem empty_phase_reporting_witness :
    runFullTestAnalysis [] 0 30 = none
    ∧ (runFullTestAnalysis [90] 0 30).isSome = true :=
  ⟨(empty_phase_reporting 0 30).1, (empty_phase_reporting 0 30).2.2 [90] (by decide)⟩

/-- Claim C5 counterexample: with target interval 0.1 s, a first batch whose
construction and dispatch take 0.05 s and zero loop overhead, the claimed
closed-loop control would sleep only the remainder 0.05 s before the next
batch; the code resets its reference clock after the dispatch completes and
sleeps the full 0.1 s. -/
theorem rate_control_not_closed_loop :
    rateSleeps (1/10) { now := 0, lastBatchTime := 0 } [(1/20, 0), (1/20, 0)]
      = [1/10, 1/10]
    ∧ (1/10 : ℚ) ≠ 1/10 - 1/20 := by
  constructor
  · norm_num [rateSleeps, rateStep]
  · norm_num

/-- Claim C5 amended: the optimized dispatcher's sleep before a batch equals
the target interval minus only the time elapsed since the previous dispatch
completed (clamped at zero); the previous batch's construction and dispatch
duration is excluded from the measurement, because last_batch_time is reset
only after the gather completes, so dispatch time never shortens the sleep;
the plain variant sleeps the full batch delay unconditionally. -/
theorem rate_sleep_ignores_dispatch_duration (interval t d1 o1 d2 o2 : ℚ) :
    rateSleeps interval { now := t, lastBatchTime := t } [(d1, o1), (d2, o2)]
      = [if 0 < interval then interval else 0,
         if o1 < interval then interval - o1 else 0]
    ∧ blocktimeSleepAfterBatch interval d1 = interval := by
  refine ⟨?_, rfl⟩
  simp only [rateSleeps, rateStep, sub_self, sub_zero, add_sub_cancel_left]

/-- Claim C6 counterexample: with a single sample the stress-test variants do
not omit the standard deviation; they report the present value 0. -/
theorem single_sample_std_reported_as_zero :
    reportStdStress [5] = some 0 ∧ reportStdStress [5] ≠ none := by
  constructor
  · rfl
  · simp [reportStdStress]

/-- Claim C6 amended: the simple monitor's report omits the standard deviation
exactly when there are fewer than two samples; the stress-test variants always
report a value, substituting 0 below two samples; and the Bessel divisor
n - 1 is only used with at least two samples, where it is nonzero — no
division by zero is performed in either variant. -/
theorem std_reporting_guards (xs : List ℚ) :
    (reportStdSimple xs = none ↔ xs.length < 2)
    ∧ (xs.length < 2 → reportStdStress xs = some 0)
    ∧ (1 < xs.length →
        reportStdSimple xs = some (sampleVariance xs) ∧ ((xs.length : ℚ) - 1) ≠ 0) := by
  refine ⟨?_, ?_, ?_⟩
  · unfold reportStdSimple
    split_ifs with h
    · simp
      omega
    · simp
      omega
  · intro h
    unfold reportStdStress
    rw [if_neg (by omega)]
  · intro h
    refine ⟨by unfold reportStdSimple; rw [if_pos h], ?_⟩
    have h2 : (2 : ℚ) ≤ (xs.length : ℚ) := by exact_mod_cast h
    linarith

/-- Concrete instance: one sample — the simple report omits the standard
deviation, the stress report carries 0. -/
theorem std_reporting_guards_witness :
    reportStdSimple [5] = none ∧ reportStdStress [5] = some 0 :=
  ⟨(std_reporting_guards [5]).1.mpr (by decide), (std_reporting_guards [5]).2.1 (by decide)⟩
